import Mathlib

/-!
Shallow embedding of the P7_PROFILE routines of `src/h3/p7_profile.c` and the
P7_REFMX layout of `src/src/p7_refmx.h`, together with theorems settling the
specification claims about them.

Scores held in C `int` variables are modelled as `Int`; probabilities held in
C `float` variables are modelled as `ℚ` (exact arithmetic standing in for the
float domain).  Score and probability tables, allocated as flat buffers in C,
are modelled as total functions on `Nat` indices; only the index ranges the C
code allocates are ever meaningful, and theorems quantify over those ranges.
-/

/-! Easel status codes (from `easel.h`, an external collaborator library). -/

def eslOK : Int := 0

def eslFAIL : Int := 1

def eslEOD : Int := 4

def eslEINVAL : Int := 10

/-- Modelled from the spec: the "impossible" sentinel score (`p7_IMPOSSIBLE`
in `hmmer.h`, which is not among the provided sources); it approximates
negative infinity, a value safely outside normal score ranges. -/
def p7_IMPOSSIBLE : Int := -987654321

/-- Modelled from the spec: the "no mode yet" tag for a freshly created
profile (`p7_NO_MODE` in `hmmer.h`, not among the provided sources). -/
def p7_NO_MODE : Int := 0

/-! Transition-channel indices of the `tsc` table.  The channel names are
used by `p7_profile.c`; their numeric values come from `hmmer.h` (not among
the provided sources) and are modelled from the listing order the spec gives
match→{match,insert,delete}, insert→{match,insert}, delete→{match,delete}. -/

def p7_TMM : Nat := 0

def p7_TMI : Nat := 1

def p7_TMD : Nat := 2

def p7_TIM : Nat := 3

def p7_TII : Nat := 4

def p7_TDM : Nat := 5

def p7_TDD : Nat := 6

/-! Special-state rows of the `xsc`/`xt` tables and their two columns.
Modelled from the spec: "4 rows (unaligned-N, end, jump, unaligned-C) × 2
columns (move-on / loop)" (`p7_XTN` etc. live in `hmmer.h`, not provided). -/

def p7_XTN : Nat := 0

def p7_XTE : Nat := 1

def p7_XTJ : Nat := 2

def p7_XTC : Nat := 3

def p7_MOVE : Nat := 0

def p7_LOOP : Nat := 1

/-- Modelled from the spec: the number of special-state rows of `xsc`/`xt`
(4: unaligned-N, end, jump, unaligned-C). -/
def p7_NXT : Nat := 4

/-- Modelled from the spec: the Plan-7 state types consumed by
`p7_profile_GetT` (`p7_STS` etc. are defined in `hmmer.h`, not among the
provided sources).  `STBOGUS` and `STX` stand for the remaining state-type
codes a caller could pass, which fall into the default branch of `GetT`. -/
inductive P7StateType where
  | STBOGUS
  | STM
  | STD
  | STI
  | STS
  | STN
  | STB
  | STE
  | STC
  | STT
  | STJ
  | STX
deriving DecidableEq, Repr

/-- Digital alphabet descriptor: the extended symbol count `Kp` and the
indices of the gap and missing-data symbols (`esl_abc_XGetGap`,
`esl_abc_XGetMissing` of easel return them). -/
structure ESL_ALPHABET where
  Kp : Nat
  gapX : Nat
  missingX : Nat
deriving DecidableEq, Repr

/-- The P7_PROFILE object, fields as used by `p7_profile.c`.  The two-level
pointer-table-over-buffer score tables become functions from (row, column)
indices to values. -/
structure P7_PROFILE where
  M : Nat
  tsc : Nat → Nat → Int
  msc : Nat → Nat → Int
  isc : Nat → Nat → Int
  bsc : Nat → Int
  esc : Nat → Int
  begin_ : Nat → ℚ
  end_ : Nat → ℚ
  xsc : Nat → Nat → Int
  xt : Nat → Nat → ℚ
  mode : Int
  abc : ESL_ALPHABET
  hmm : Option Unit
  bg : Option Nat
  do_lcorrect : Int
  lscore : ℚ
  h2_mode : Int

/-- Contents of fresh uninitialized allocator memory backing each table of
a profile.  `p7_profile_Create` overwrites only the sentinel entries; the
rest keeps whatever junk the allocator handed out, which this record makes
explicit. -/
structure UninitMem where
  tsc0 : Nat → Nat → Int
  msc0 : Nat → Nat → Int
  isc0 : Nat → Nat → Int
  bsc0 : Nat → Int
  esc0 : Nat → Int
  begin0 : Nat → ℚ
  end0 : Nat → ℚ
  xsc0 : Nat → Nat → Int
  xt0 : Nat → Nat → ℚ

/-- The initialization performed by `p7_profile_Create` (lines 35-111 of
`p7_profile.c`) on the success path: node-0 transition and emission scores,
the node-1 delete transitions, and the gap/missing emission rows are set to
`p7_IMPOSSIBLE`; the scalar fields are set as in the source; everything else
keeps its uninitialized contents `mem`. -/
def p7_profile_Create (M : Nat) (abc : ESL_ALPHABET) (mem : UninitMem) : P7_PROFILE :=
  { M := M
    tsc := fun t k =>
      if t < 7 ∧ k = 0 then p7_IMPOSSIBLE
      else if (t = p7_TDM ∨ t = p7_TDD) ∧ k = 1 then p7_IMPOSSIBLE
      else mem.tsc0 t k
    msc := fun x k =>
      if x < abc.Kp ∧ k = 0 then p7_IMPOSSIBLE
      else if x = abc.gapX ∧ k < M + 1 then p7_IMPOSSIBLE
      else if x = abc.missingX ∧ k < M + 1 then p7_IMPOSSIBLE
      else mem.msc0 x k
    isc := fun x k =>
      if x < abc.Kp ∧ k = 0 then p7_IMPOSSIBLE
      else if x = abc.gapX ∧ k < M then p7_IMPOSSIBLE
      else if x = abc.missingX ∧ k < M then p7_IMPOSSIBLE
      else mem.isc0 x k
    bsc := mem.bsc0
    esc := mem.esc0
    begin_ := mem.begin0
    end_ := mem.end0
    xsc := mem.xsc0
    xt := mem.xt0
    mode := p7_NO_MODE
    abc := abc
    hmm := none
    bg := none
    do_lcorrect := 0
    lscore := 0
    h2_mode := 0 }

/-- Transition-score lookup `p7_profile_GetT` (lines 162-262 of
`p7_profile.c`).  The result pair is (status, `*ret_tsc`): the C function
initializes `tsc = 0`, fills it on a legal pair and returns `eslOK`
(sources `p7_STS`/`p7_STT` merely `break`, leaving 0), and on any other
pair jumps to `ERROR`, which sets `*ret_tsc = 0` and returns the
`eslEINVAL` raised by `ESL_XEXCEPTION`. -/
def p7_profile_GetT (gm : P7_PROFILE) (st1 : P7StateType) (k1 : Nat)
    (st2 : P7StateType) (k2 : Nat) : Int × Int :=
  match st1 with
  | .STS => (eslOK, 0)
  | .STT => (eslOK, 0)
  | .STN =>
    match st2 with
    | .STB => (eslOK, gm.xsc p7_XTN p7_MOVE)
    | .STN => (eslOK, gm.xsc p7_XTN p7_LOOP)
    | _ => (eslEINVAL, 0)
  | .STB =>
    match st2 with
    | .STM => (eslOK, gm.bsc k2)
    | _ => (eslEINVAL, 0)
  | .STM =>
    match st2 with
    | .STM => (eslOK, gm.tsc p7_TMM k1)
    | .STI => (eslOK, gm.tsc p7_TMI k1)
    | .STD => (eslOK, gm.tsc p7_TMD k1)
    | .STE => (eslOK, gm.esc k1)
    | _ => (eslEINVAL, 0)
  | .STD =>
    match st2 with
    | .STM => (eslOK, gm.tsc p7_TDM k1)
    | .STD => (eslOK, gm.tsc p7_TDD k1)
    | _ => (eslEINVAL, 0)
  | .STI =>
    match st2 with
    | .STM => (eslOK, gm.tsc p7_TIM k1)
    | .STI => (eslOK, gm.tsc p7_TII k1)
    | _ => (eslEINVAL, 0)
  | .STE =>
    match st2 with
    | .STC => (eslOK, gm.xsc p7_XTE p7_MOVE)
    | .STJ => (eslOK, gm.xsc p7_XTE p7_LOOP)
    | _ => (eslEINVAL, 0)
  | .STJ =>
    match st2 with
    | .STB => (eslOK, gm.xsc p7_XTJ p7_MOVE)
    | .STJ => (eslOK, gm.xsc p7_XTJ p7_LOOP)
    | _ => (eslEINVAL, 0)
  | .STC =>
    match st2 with
    | .STT => (eslOK, gm.xsc p7_XTC p7_MOVE)
    | .STC => (eslOK, gm.xsc p7_XTC p7_LOOP)
    | _ => (eslEINVAL, 0)
  | _ => (eslEINVAL, 0)

/-- Modelled from the spec: the easel routine `esl_FCompare` (external library, source
not provided) — a within-tolerance comparison of two values, `eslOK` when
they agree within `tol` and `eslFAIL` otherwise. -/
def esl_FCompare (a b tol : ℚ) : Int :=
  if |a - b| ≤ tol then eslOK else eslFAIL

/-- Probability-invariant validation `p7_profile_Validate` (lines 282-306 of
`p7_profile.c`): the weighted begin sum, the exact end values, and the four
special-row sums are checked in that order, each failure returning a bare
`eslFAIL`. -/
def p7_profile_Validate (gm : P7_PROFILE) (tol : ℚ) : Int :=
  if esl_FCompare
      ((Finset.Icc 1 gm.M).sum fun k => gm.begin_ k * ((gm.M - k + 1 : ℕ) : ℚ))
      1 tol ≠ eslOK then eslFAIL
  else if ¬ (∀ j < gm.M, gm.end_ (j + 1) = 1) then eslFAIL
  else if ¬ (∀ i < p7_NXT,
      esl_FCompare (gm.xt i p7_MOVE + gm.xt i p7_LOOP) 1 tol = eslOK) then eslFAIL
  else eslOK

/-- State-passing form of `p7_profile_GetT`: the C function reads `gm`
through a pointer and performs no store through it (every assignment in
lines 162-262 targets the locals `status`/`tsc` or the out-parameter
`ret_tsc`), so threading the profile through the call returns it as the
body left it — untouched. -/
def p7_profile_GetT_run (gm : P7_PROFILE) (st1 : P7StateType) (k1 : Nat)
    (st2 : P7StateType) (k2 : Nat) : (Int × Int) × P7_PROFILE :=
  (p7_profile_GetT gm st1 k1 st2 k2, gm)

/-- State-passing form of `p7_profile_Validate`: the C function (lines
282-306) only reads `gm` and writes the locals `sum`/`k`/`i`, so the
threaded profile comes back untouched. -/
def p7_profile_Validate_run (gm : P7_PROFILE) (tol : ℚ) : Int × P7_PROFILE :=
  (p7_profile_Validate gm tol, gm)

/-- Legal source→destination state-type pairs as the grammar of the spec lists
them (§4.1): unaligned-N→{begin, self-loop}; begin→match; match→{match,
insert, delete, end}; delete→{match, delete}; insert→{match, insert};
end→{unaligned-C, jump}; jump→{begin, self-loop}; unaligned-C→{terminate,
self-loop}.  This is the spec-side definition used to compare the claimed
round-trip contract against `p7_profile_GetT`. -/
def legalTransition : P7StateType → P7StateType → Bool
  | .STN, .STB => true
  | .STN, .STN => true
  | .STB, .STM => true
  | .STM, .STM => true
  | .STM, .STI => true
  | .STM, .STD => true
  | .STM, .STE => true
  | .STD, .STM => true
  | .STD, .STD => true
  | .STI, .STM => true
  | .STI, .STI => true
  | .STE, .STC => true
  | .STE, .STJ => true
  | .STJ, .STB => true
  | .STJ, .STJ => true
  | .STC, .STT => true
  | .STC, .STC => true
  | _, _ => false

/-! MPI communication (`p7_profile_MPISend` / `p7_profile_MPIRecv`, lines
324-404 of `p7_profile.c`).  The point-to-point MPI channel is modelled as a
list of messages, each an `MPI_INT` or `MPI_FLOAT` vector; `MPISend`
produces the list in the order of its `MPI_Send` calls, `MPIRecv` consumes
it in the order of its `MPI_Recv` calls. -/

/-- One MPI message: a vector of C ints or of C floats. -/
inductive MPIMSG where
  | ivec : List Int → MPIMSG
  | fvec : List ℚ → MPIMSG
deriving DecidableEq

/-- Read out `n` consecutive entries of a buffer into a message payload
(what `MPI_Send(buf, n, ...)` transmits). -/
def vecToList {α : Type} (n : Nat) (f : Nat → α) : List α :=
  (List.range n).map f

/-- Overwrite the first `n` entries of a buffer with a received payload
(what `MPI_Recv(buf, n, ...)` stores); entries beyond `n` keep the old
buffer contents. -/
def recvVec {α : Type} (n : Nat) (l : List α) (old : Nat → α) : Nat → α :=
  fun i => if i < n then l.getD i (old i) else old i

/-- Read out a two-level table with `rows` rows of `cols` entries through
its flat backing buffer (row `x`, entry `k` lives at offset `x*cols + k`,
as set up by `p7_profile_Create`). -/
def matToList {α : Type} (rows cols : Nat) (f : Nat → Nat → α) : List α :=
  vecToList (rows * cols) fun j => f (j / cols) (j % cols)

/-- Overwrite a two-level table with `rows` rows of `cols` entries from a
received flat payload; entries outside the table keep the old contents. -/
def recvMat {α : Type} (rows cols : Nat) (l : List α) (old : Nat → Nat → α) :
    Nat → Nat → α :=
  fun x k => if x < rows ∧ k < cols then l.getD (x * cols + k) (old x k) else old x k

/-- Profile serialization `p7_profile_MPISend` (lines 324-356 of
`p7_profile.c`): a `NULL` profile sends the single sentinel int `-1`;
otherwise the nineteen `MPI_Send` calls, in source order. -/
def p7_profile_MPISend (gmOpt : Option P7_PROFILE) : List MPIMSG :=
  match gmOpt with
  | none => [.ivec [-1]]
  | some gm =>
    [.ivec [(gm.M : Int)],
     .ivec [gm.mode],
     .ivec (matToList 7 gm.M gm.tsc),
     .ivec (matToList gm.abc.Kp (gm.M + 1) gm.msc),
     .ivec (matToList gm.abc.Kp gm.M gm.isc),
     .ivec (vecToList 2 (gm.xsc 0)),
     .ivec (vecToList 2 (gm.xsc 1)),
     .ivec (vecToList 2 (gm.xsc 2)),
     .ivec (vecToList 2 (gm.xsc 3)),
     .ivec (vecToList (gm.M + 1) gm.bsc),
     .ivec (vecToList (gm.M + 1) gm.esc),
     .fvec (vecToList 2 (gm.xt 0)),
     .fvec (vecToList 2 (gm.xt 1)),
     .fvec (vecToList 2 (gm.xt 2)),
     .fvec (vecToList 2 (gm.xt 3)),
     .fvec (vecToList (gm.M + 1) gm.begin_),
     .fvec (vecToList (gm.M + 1) gm.end_),
     .ivec [gm.do_lcorrect],
     .fvec [gm.lscore],
     .ivec [gm.h2_mode]]

/-- Profile reception `p7_profile_MPIRecv` (lines 367-404 of
`p7_profile.c`): the size message is read first; the sentinel `-1` yields
`eslEOD` with no profile; otherwise a fresh profile is created with
`p7_profile_Create` (over uninitialized memory `mem`) and the remaining
eighteen messages overwrite its buffers in source order, after which `abc`,
`hmm = NULL` and `bg` are set.  A channel not shaped the way the receiver
expects has no defined meaning; the model returns `eslFAIL` and no profile
there. -/
def p7_profile_MPIRecv (abc : ESL_ALPHABET) (bg : Option Nat) (mem : UninitMem)
    (msgs : List MPIMSG) : Int × Option P7_PROFILE :=
  match msgs with
  | .ivec [m] :: rest =>
    if m = -1 then (eslEOD, none)
    else
      match rest with
      | [.ivec [mode], .ivec tl, .ivec ml, .ivec il,
         .ivec x0l, .ivec x1l, .ivec x2l, .ivec x3l,
         .ivec bl, .ivec el,
         .fvec t0l, .fvec t1l, .fvec t2l, .fvec t3l,
         .fvec beginl, .fvec endl,
         .ivec [dl], .fvec [ls], .ivec [h2]] =>
        let M := m.toNat
        let gm0 := p7_profile_Create M abc mem
        (eslOK, some
          { gm0 with
            mode := mode
            tsc := recvMat 7 M tl gm0.tsc
            msc := recvMat abc.Kp (M + 1) ml gm0.msc
            isc := recvMat abc.Kp M il gm0.isc
            xsc := fun i j =>
              if i = 0 then recvVec 2 x0l (gm0.xsc 0) j
              else if i = 1 then recvVec 2 x1l (gm0.xsc 1) j
              else if i = 2 then recvVec 2 x2l (gm0.xsc 2) j
              else if i = 3 then recvVec 2 x3l (gm0.xsc 3) j
              else gm0.xsc i j
            bsc := recvVec (M + 1) bl gm0.bsc
            esc := recvVec (M + 1) el gm0.esc
            xt := fun i j =>
              if i = 0 then recvVec 2 t0l (gm0.xt 0) j
              else if i = 1 then recvVec 2 t1l (gm0.xt 1) j
              else if i = 2 then recvVec 2 t2l (gm0.xt 2) j
              else if i = 3 then recvVec 2 t3l (gm0.xt 3) j
              else gm0.xt i j
            begin_ := recvVec (M + 1) beginl gm0.begin_
            end_ := recvVec (M + 1) endl gm0.end_
            do_lcorrect := dl
            lscore := ls
            h2_mode := h2
            abc := abc
            hmm := none
            bg := bg })
      | _ => (eslFAIL, none)
  | _ => (eslFAIL, none)

/-! Allocation-failure model for `p7_profile_Create` / `p7_profile_Destroy`
(lines 35-139 of `p7_profile.c`).  `p7_profile_Create` performs eleven
`ESL_ALLOC` calls in a fixed order; a failing one jumps to `ERROR`, which
calls `p7_profile_Destroy` on the partial object and returns `NULL`.  Each
allocation is named by the field it fills; the null-initialization
discipline of the source (`gm->tsc = ... = NULL` right after the level-0
allocation, `gm->tsc[0] = NULL` right at the level-1 allocations) means a
field pointer is non-NULL exactly when its allocation already succeeded. -/

/-- The eleven allocations of `p7_profile_Create`, named by the pointer each
one fills. -/
inductive AllocField where
  | gmF
  | tscF
  | mscF
  | iscF
  | bscF
  | escF
  | beginF
  | endF
  | tsc0F
  | msc0F
  | isc0F
deriving DecidableEq, Repr

/-- The order in which `p7_profile_Create` issues its `ESL_ALLOC` calls
(lines 43-65): the object, the seven level-1 tables, then the three level-2
backing buffers. -/
def allocOrder : List AllocField :=
  [.gmF, .tscF, .mscF, .iscF, .bscF, .escF, .beginF, .endF, .tsc0F, .msc0F, .isc0F]

/-- Teardown `p7_profile_Destroy` (lines 122-139): given which pointers are
non-NULL, the fields freed, in source order — the three backing buffers
(each guarded by both its table pointer and itself being non-NULL), the
seven tables (each guarded by itself), all guarded by `gm` being non-NULL,
then `gm` itself (`free(NULL)` at line 137 is a no-op, modelled by freeing
`gm` only when non-NULL). -/
def destroyFrees (nn : AllocField → Bool) : List AllocField :=
  (if nn .gmF then
    (if nn .tscF && nn .tsc0F then [AllocField.tsc0F] else []) ++
    (if nn .mscF && nn .msc0F then [AllocField.msc0F] else []) ++
    (if nn .iscF && nn .isc0F then [AllocField.isc0F] else []) ++
    (if nn .tscF then [AllocField.tscF] else []) ++
    (if nn .mscF then [AllocField.mscF] else []) ++
    (if nn .iscF then [AllocField.iscF] else []) ++
    (if nn .bscF then [AllocField.bscF] else []) ++
    (if nn .escF then [AllocField.escF] else []) ++
    (if nn .beginF then [AllocField.beginF] else []) ++
    (if nn .endF then [AllocField.endF] else [])
  else []) ++
  (if nn .gmF then [AllocField.gmF] else [])

/-- Allocation run of `p7_profile_Create`: `failAt = some i` makes the
`i`-th `ESL_ALLOC` (0-based, in `allocOrder`) fail; the result is `none`
(the `NULL` return of the `ERROR` path) together with the fields
`p7_profile_Destroy` frees there, or `some ()` with nothing freed when
every allocation succeeds. -/
def p7_profile_Create_allocRun (failAt : Option Nat) : Option Unit × List AllocField :=
  match failAt with
  | some i =>
    if i < allocOrder.length then
      (none, destroyFrees fun f => (allocOrder.take i).contains f)
    else (some (), [])
  | none => (some (), [])

/-! The P7_REFMX reference DP matrix (`src/src/p7_refmx.h`): the cell
constants, the access macros and the documented row layout. -/

def p7R_NSCELLS : Nat := 6

def p7R_ML : Nat := 0

def p7R_MG : Nat := 1

def p7R_IL : Nat := 2

def p7R_IG : Nat := 3

def p7R_DL : Nat := 4

def p7R_DG : Nat := 5

def p7R_NXCELLS : Nat := 9

def p7R_E : Nat := 0

def p7R_N : Nat := 1

def p7R_J : Nat := 2

def p7R_B : Nat := 3

def p7R_L : Nat := 4

def p7R_G : Nat := 5

def p7R_C : Nat := 6

def p7R_JJ : Nat := 7

def p7R_CC : Nat := 8

/-- The P7_REFMX object (lines 59-72 of `p7_refmx.h`); each row `dp[i]` is
modelled as a function from flat offsets to float values. -/
structure P7_REFMX where
  M : Nat
  L : Nat
  dp : Nat → Nat → ℚ
  type : Int

/-- Access macro `P7R_MX` (line 82 of `p7_refmx.h`): main cell `(i,k,s)` at
row offset `k * p7R_NSCELLS + s`. -/
def P7R_MX (rmx : P7_REFMX) (i k s : Nat) : ℚ :=
  rmx.dp i (k * p7R_NSCELLS + s)

/-- Access macro `P7R_XMX` (line 81 of `p7_refmx.h`): special cell `(i,s)`
at row offset `(M + 1) * p7R_NSCELLS + s`. -/
def P7R_XMX (rmx : P7_REFMX) (i s : Nat) : ℚ :=
  rmx.dp i ((rmx.M + 1) * p7R_NSCELLS + s)

/-- The six main-state channels of one node block, in the layout order of
`p7_refmx.h`. -/
inductive RefMainTag where
  | ML
  | MG
  | IL
  | IG
  | DL
  | DG
deriving DecidableEq, Repr

/-- The nine special-state channels of the trailing block, in the layout
order of `p7_refmx.h`. -/
inductive RefSpecialTag where
  | E
  | N
  | J
  | B
  | L
  | G
  | C
  | JJ
  | CC
deriving DecidableEq, Repr

/-- A logical cell of one DP row: a main cell of node `k` or a special
cell. -/
inductive RefCell where
  | main : Nat → RefMainTag → RefCell
  | special : RefSpecialTag → RefCell
deriving DecidableEq, Repr

/-- One node block of a row: the six channels ML MG IL IG DL DG of node
`k`, in that order (lines 122-125 of `p7_refmx.h`). -/
def nodeBlock (k : Nat) : List RefCell :=
  [.main k .ML, .main k .MG, .main k .IL, .main k .IG, .main k .DL, .main k .DG]

/-- Node blocks of nodes `0..n` concatenated in order. -/
def nodeBlocks : Nat → List RefCell
  | 0 => nodeBlock 0
  | n + 1 => nodeBlocks n ++ nodeBlock (n + 1)

/-- The trailing special block: E N J B L G C JJ CC, in that order (lines
122-125 of `p7_refmx.h`). -/
def specialBlock : List RefCell :=
  [.special .E, .special .N, .special .J, .special .B, .special .L,
   .special .G, .special .C, .special .JJ, .special .CC]

/-- Layout of one row `dp[i]` of a P7_REFMX for a model of `M` nodes: the
`(M+1)` node blocks for `k = 0..M` followed by the special block (lines
122-125 of `p7_refmx.h`). -/
def rowLayout (M : Nat) : List RefCell :=
  nodeBlocks M ++ specialBlock

/-- A concrete all-zero profile over a nucleotide-sized alphabet
(Kp = 6, gap index 4, missing index 5), used as the concrete input of
witnesses and counterexamples. -/
def zeroProfile : P7_PROFILE :=
  { M := 1
    tsc := fun _ _ => 0
    msc := fun _ _ => 0
    isc := fun _ _ => 0
    bsc := fun _ => 0
    esc := fun _ => 0
    begin_ := fun _ => 0
    end_ := fun _ => 0
    xsc := fun _ _ => 0
    xt := fun _ _ => 0
    mode := 0
    abc := { Kp := 6, gapX := 4, missingX := 5 }
    hmm := none
    bg := none
    do_lcorrect := 0
    lscore := 0
    h2_mode := 0 }

/-- An all-zero uninitialized-memory record, concrete input for witnesses. -/
def zeroMem : UninitMem :=
  { tsc0 := fun _ _ => 0
    msc0 := fun _ _ => 0
    isc0 := fun _ _ => 0
    bsc0 := fun _ => 0
    esc0 := fun _ => 0
    begin0 := fun _ => 0
    end0 := fun _ => 0
    xsc0 := fun _ _ => 0
    xt0 := fun _ _ => 0 }

/-! Helper lemmas. -/

theorem vecToList_getD {α : Type} {n j : Nat} (f : Nat → α) (d : α) (h : j < n) :
    (vecToList n f).getD j d = f j := by
  simp [vecToList, List.getD_eq_getElem?_getD, List.getElem?_map, List.getElem?_range h]

theorem recvVec_vecToList {α : Type} {n i : Nat} (f old : Nat → α) (h : i < n) :
    recvVec n (vecToList n f) old i = f i := by
  simp only [recvVec, if_pos h]
  exact vecToList_getD f (old i) h

theorem recvMat_matToList {α : Type} {r c x k : Nat} (f old : Nat → Nat → α)
    (hx : x < r) (hk : k < c) :
    recvMat r c (matToList r c f) old x k = f x k := by
  have hc : 0 < c := by omega
  have hidx : x * c + k < r * c := by
    have h1 : x * c + k < (x + 1) * c := by rw [Nat.succ_mul]; omega
    exact h1.trans_le (Nat.mul_le_mul_right c hx)
  have hdiv : (x * c + k) / c = x := by
    rw [Nat.add_comm, Nat.mul_comm, Nat.add_mul_div_left _ _ hc]
    simp [Nat.div_eq_of_lt hk]
  have hmod : (x * c + k) % c = k := by
    rw [Nat.add_comm, Nat.mul_comm, Nat.add_mul_mod_self_left]
    exact Nat.mod_eq_of_lt hk
  simp only [recvMat, matToList, if_pos (And.intro hx hk)]
  rw [vecToList_getD _ _ hidx, hdiv, hmod]

theorem nodeBlocks_length (n : Nat) : (nodeBlocks n).length = (n + 1) * 6 := by
  induction n with
  | zero => rfl
  | succ n ih => simp [nodeBlocks, nodeBlock, ih]; omega

theorem nodeBlocks_get (n k s : Nat) (hk : k ≤ n) (hs : s < 6) :
    (nodeBlocks n).get? (k * 6 + s) = (nodeBlock k).get? s := by
  induction n with
  | zero =>
    have : k = 0 := Nat.le_zero.mp hk
    subst this
    simp [nodeBlocks]
  | succ n ih =>
    rcases Nat.lt_or_ge k (n + 1) with h | h
    · have hk' : k ≤ n := Nat.lt_succ_iff.mp h
      rw [nodeBlocks, List.get?_append]
      · exact ih hk'
      · rw [nodeBlocks_length]
        have : k * 6 + s < (k + 1) * 6 := by omega
        have h2 : (k + 1) * 6 ≤ (n + 1) * 6 := Nat.mul_le_mul_right 6 (by omega)
        omega
    · have hkn : k = n + 1 := Nat.le_antisymm hk h
      subst hkn
      rw [nodeBlocks, List.get?_append_right]
      · congr 1
        rw [nodeBlocks_length]
        omega
      · rw [nodeBlocks_length]
        omega

theorem rowLayout_main (M k s : Nat) (hk : k ≤ M) (hs : s < 6) :
    (rowLayout M).get? (k * 6 + s) = (nodeBlock k).get? s := by
  rw [rowLayout, List.get?_append]
  · exact nodeBlocks_get M k s hk hs
  · rw [nodeBlocks_length]
    have : k * 6 + s < (k + 1) * 6 := by omega
    have h2 : (k + 1) * 6 ≤ (M + 1) * 6 := Nat.mul_le_mul_right 6 (by omega)
    omega

theorem rowLayout_special (M s : Nat) :
    (rowLayout M).get? ((M + 1) * 6 + s) = specialBlock.get? s := by
  rw [rowLayout, List.get?_append_right]
  · congr 1
    rw [nodeBlocks_length]
    omega
  · rw [nodeBlocks_length]
    omega

/-! Claim theorems. -/

/-- C4: for every pair accepted by the legal-transition grammar,
`p7_profile_GetT` returns `eslOK` and exactly the corresponding stored
score: N→B/N give `xsc[XTN][MOVE/LOOP]`; B→M gives `bsc[k2]`; M→M/I/D give
`tsc[TMM/TMI/TMD][k1]` and M→E gives `esc[k1]`; D→M/D give
`tsc[TDM/TDD][k1]`; I→M/I give `tsc[TIM/TII][k1]`; E→C/J give
`xsc[XTE][MOVE/LOOP]`; J→B/J give `xsc[XTJ][MOVE/LOOP]`; C→T/C give
`xsc[XTC][MOVE/LOOP]`. -/
theorem getT_legal_values (gm : P7_PROFILE) (k1 k2 : Nat) :
    p7_profile_GetT gm .STN k1 .STB k2 = (eslOK, gm.xsc p7_XTN p7_MOVE) ∧
    p7_profile_GetT gm .STN k1 .STN k2 = (eslOK, gm.xsc p7_XTN p7_LOOP) ∧
    p7_profile_GetT gm .STB k1 .STM k2 = (eslOK, gm.bsc k2) ∧
    p7_profile_GetT gm .STM k1 .STM k2 = (eslOK, gm.tsc p7_TMM k1) ∧
    p7_profile_GetT gm .STM k1 .STI k2 = (eslOK, gm.tsc p7_TMI k1) ∧
    p7_profile_GetT gm .STM k1 .STD k2 = (eslOK, gm.tsc p7_TMD k1) ∧
    p7_profile_GetT gm .STM k1 .STE k2 = (eslOK, gm.esc k1) ∧
    p7_profile_GetT gm .STD k1 .STM k2 = (eslOK, gm.tsc p7_TDM k1) ∧
    p7_profile_GetT gm .STD k1 .STD k2 = (eslOK, gm.tsc p7_TDD k1) ∧
    p7_profile_GetT gm .STI k1 .STM k2 = (eslOK, gm.tsc p7_TIM k1) ∧
    p7_profile_GetT gm .STI k1 .STI k2 = (eslOK, gm.tsc p7_TII k1) ∧
    p7_profile_GetT gm .STE k1 .STC k2 = (eslOK, gm.xsc p7_XTE p7_MOVE) ∧
    p7_profile_GetT gm .STE k1 .STJ k2 = (eslOK, gm.xsc p7_XTE p7_LOOP) ∧
    p7_profile_GetT gm .STJ k1 .STB k2 = (eslOK, gm.xsc p7_XTJ p7_MOVE) ∧
    p7_profile_GetT gm .STJ k1 .STJ k2 = (eslOK, gm.xsc p7_XTJ p7_LOOP) ∧
    p7_profile_GetT gm .STC k1 .STT k2 = (eslOK, gm.xsc p7_XTC p7_MOVE) ∧
    p7_profile_GetT gm .STC k1 .STC k2 = (eslOK, gm.xsc p7_XTC p7_LOOP) :=
  ⟨rfl, rfl, rfl, rfl, rfl, rfl, rfl, rfl, rfl, rfl, rfl, rfl, rfl, rfl, rfl, rfl, rfl⟩

/-- C10: querying `p7_profile_GetT` with source state-type S (start) or T
(terminal) returns `eslOK` with `*ret_tsc = 0` for every destination
state-type and all node indices, although no S→* or T→* pair is listed in
the legal-transition grammar. -/
theorem getT_start_terminal_ok (gm : P7_PROFILE) (st2 : P7StateType) (k1 k2 : Nat) :
    p7_profile_GetT gm .STS k1 st2 k2 = (eslOK, 0) ∧
    p7_profile_GetT gm .STT k1 st2 k2 = (eslOK, 0) ∧
    legalTransition .STS st2 = false ∧
    legalTransition .STT st2 = false :=
  ⟨rfl, rfl, by cases st2 <;> rfl, by cases st2 <;> rfl⟩

/-- C1 counterexample: the pair S→N is not accepted by the legal-transition
grammar, yet `p7_profile_GetT` returns `eslOK` (not `eslEINVAL`) on it —
refuting the claim that every pair outside the grammar returns an error. -/
theorem getT_roundtrip_counterexample :
    legalTransition .STS .STN = false ∧
    p7_profile_GetT zeroProfile .STS 0 .STN 0 = (eslOK, 0) ∧
    eslOK ≠ eslEINVAL :=
  ⟨rfl, rfl, by decide⟩

/-- C1 (amended): every pair accepted by the legal-transition grammar
returns `eslOK`; a query whose source is S or T returns `eslOK` with
`*ret_tsc = 0`; every other pair outside the grammar returns `eslEINVAL`
with `*ret_tsc = 0` (and does not abort). -/
theorem getT_roundtrip_amended (gm : P7_PROFILE) (st1 : P7StateType) (k1 : Nat)
    (st2 : P7StateType) (k2 : Nat) :
    (legalTransition st1 st2 = true → (p7_profile_GetT gm st1 k1 st2 k2).1 = eslOK) ∧
    (st1 = .STS ∨ st1 = .STT → p7_profile_GetT gm st1 k1 st2 k2 = (eslOK, 0)) ∧
    (legalTransition st1 st2 = false → st1 ≠ .STS → st1 ≠ .STT →
      p7_profile_GetT gm st1 k1 st2 k2 = (eslEINVAL, 0)) := by
  cases st1 <;> cases st2 <;> simp [legalTransition, p7_profile_GetT]

/-- C1 witness: the amended theorem applied at concrete queries — a legal
pair returns `eslOK`, a source-S query returns `(eslOK, 0)`, and an illegal
pair with ordinary source returns `(eslEINVAL, 0)`. -/
theorem getT_roundtrip_amended_witness :
    (p7_profile_GetT zeroProfile .STM 0 .STE 0).1 = eslOK ∧
    p7_profile_GetT zeroProfile .STT 0 .STM 0 = (eslOK, 0) ∧
    p7_profile_GetT zeroProfile .STM 0 .STN 0 = (eslEINVAL, 0) :=
  ⟨(getT_roundtrip_amended zeroProfile .STM 0 .STE 0).1 (by decide),
   (getT_roundtrip_amended zeroProfile .STT 0 .STM 0).2.1 (by decide),
   (getT_roundtrip_amended zeroProfile .STM 0 .STN 0).2.2 (by decide) (by decide) (by decide)⟩

/-- C9: the accessor operations `p7_profile_GetT` and `p7_profile_Validate`
leave every field of the profile unchanged: threading the profile through
either call returns it equal to the input, for every profile and every
query. -/
theorem profile_accessors_leave_profile_unchanged (gm : P7_PROFILE)
    (st1 : P7StateType) (k1 : Nat) (st2 : P7StateType) (k2 : Nat) (tol : ℚ) :
    (p7_profile_GetT_run gm st1 k1 st2 k2).2 = gm ∧
    (p7_profile_Validate_run gm tol).2 = gm :=
  ⟨rfl, rfl⟩

theorem esl_FCompare_eq_eslOK (a b tol : ℚ) :
    esl_FCompare a b tol = eslOK ↔ |a - b| ≤ tol := by
  unfold esl_FCompare
  split_ifs with h
  · simp [h]
  · simp only [eslFAIL, eslOK]
    constructor
    · intro hc
      exact absurd hc (by decide)
    · intro hc
      exact absurd hc h

/-- C2: `p7_profile_Validate gm tol` returns `eslOK` iff all three
probability invariants hold — the weighted begin sum equals 1 within `tol`,
`end[k]` equals exactly 1 for every `k = 1..M`, and each of the four
special-state rows has `xt[i][MOVE] + xt[i][LOOP]` equal to 1 within `tol`
— and otherwise it returns the bare `eslFAIL`. -/
theorem validate_iff_invariants (gm : P7_PROFILE) (tol : ℚ) :
    (p7_profile_Validate gm tol = eslOK ↔
      (|((Finset.Icc 1 gm.M).sum fun k => gm.begin_ k * ((gm.M - k + 1 : ℕ) : ℚ)) - 1| ≤ tol ∧
       (∀ k, 1 ≤ k → k ≤ gm.M → gm.end_ k = 1) ∧
       (∀ i < 4, |gm.xt i p7_MOVE + gm.xt i p7_LOOP - 1| ≤ tol))) ∧
    (p7_profile_Validate gm tol = eslOK ∨ p7_profile_Validate gm tol = eslFAIL) := by
  have hend : (∀ j < gm.M, gm.end_ (j + 1) = 1) ↔
      (∀ k, 1 ≤ k → k ≤ gm.M → gm.end_ k = 1) := by
    constructor
    · intro h k h1k hkM
      have := h (k - 1) (by omega)
      rwa [Nat.sub_add_cancel h1k] at this
    · intro h j hj
      exact h (j + 1) (by omega) (by omega)
  have hxt : (∀ i < p7_NXT, esl_FCompare (gm.xt i p7_MOVE + gm.xt i p7_LOOP) 1 tol = eslOK) ↔
      (∀ i < 4, |gm.xt i p7_MOVE + gm.xt i p7_LOOP - 1| ≤ tol) := by
    unfold p7_NXT
    constructor
    · intro h i hi
      exact (esl_FCompare_eq_eslOK _ _ _).mp (h i hi)
    · intro h i hi
      exact (esl_FCompare_eq_eslOK _ _ _).mpr (h i hi)
  have hfo : eslFAIL ≠ eslOK := by decide
  unfold p7_profile_Validate
  by_cases h1 : esl_FCompare
      ((Finset.Icc 1 gm.M).sum fun k => gm.begin_ k * ((gm.M - k + 1 : ℕ) : ℚ)) 1 tol = eslOK
  · rw [if_neg (not_not_intro h1)]
    by_cases h2 : ∀ j < gm.M, gm.end_ (j + 1) = 1
    · rw [if_neg (not_not_intro h2)]
      by_cases h3 : ∀ i < p7_NXT,
          esl_FCompare (gm.xt i p7_MOVE + gm.xt i p7_LOOP) 1 tol = eslOK
      · rw [if_neg (not_not_intro h3)]
        exact ⟨iff_of_true rfl
          ⟨(esl_FCompare_eq_eslOK _ _ _).mp h1, hend.mp h2, hxt.mp h3⟩, Or.inl rfl⟩
      · rw [if_pos h3]
        exact ⟨iff_of_false hfo fun hc => h3 (hxt.mpr hc.2.2), Or.inr rfl⟩
    · rw [if_pos h2]
      exact ⟨iff_of_false hfo fun hc => h2 (hend.mpr hc.2.1), Or.inr rfl⟩
  · rw [if_pos h1]
    exact ⟨iff_of_false hfo fun hc => h1 ((esl_FCompare_eq_eslOK _ _ _).mpr hc.1), Or.inr rfl⟩

/-- C2 witness: the iff evaluated on a concrete passing profile — M = 1,
begin[1] = 1, end[1] = 1, each xt row summing to 1 — validates `eslOK`. -/
theorem validate_iff_invariants_witness :
    p7_profile_Validate
      { zeroProfile with
        begin_ := fun _ => 1
        end_ := fun _ => 1
        xt := fun _ j => if j = 0 then 1 else 0 } 0 = eslOK := by
  refine (validate_iff_invariants _ 0).1.mpr ⟨?_, ?_, ?_⟩
  · simp [zeroProfile]
  · intro k _ _
    rfl
  · intro i _
    norm_num [zeroProfile, p7_MOVE, p7_LOOP]

/-- C3: for every M ≥ 1 and alphabet, a profile freshly returned by
`p7_profile_Create` has all seven node-0 transition scores and all node-0
match/insert emission scores set to `p7_IMPOSSIBLE`, the node-1 delete
transitions (D→M and D→D at node 1) set to `p7_IMPOSSIBLE`, and the
match- and insert-emission rows of the gap and missing-data symbols set to
`p7_IMPOSSIBLE` at every node — whatever junk the fresh allocations held. -/
theorem create_fresh_sentinels (M : Nat) (abc : ESL_ALPHABET) (mem : UninitMem)
    (hM : 1 ≤ M) :
    (∀ t < 7, (p7_profile_Create M abc mem).tsc t 0 = p7_IMPOSSIBLE) ∧
    (∀ x < abc.Kp, (p7_profile_Create M abc mem).msc x 0 = p7_IMPOSSIBLE ∧
      (p7_profile_Create M abc mem).isc x 0 = p7_IMPOSSIBLE) ∧
    (p7_profile_Create M abc mem).tsc p7_TDM 1 = p7_IMPOSSIBLE ∧
    (p7_profile_Create M abc mem).tsc p7_TDD 1 = p7_IMPOSSIBLE ∧
    (∀ k ≤ M, (p7_profile_Create M abc mem).msc abc.gapX k = p7_IMPOSSIBLE ∧
      (p7_profile_Create M abc mem).msc abc.missingX k = p7_IMPOSSIBLE) ∧
    (∀ k < M, (p7_profile_Create M abc mem).isc abc.gapX k = p7_IMPOSSIBLE ∧
      (p7_profile_Create M abc mem).isc abc.missingX k = p7_IMPOSSIBLE) := by
  refine ⟨?_, ?_, ?_, ?_, ?_, ?_⟩
  · intro t ht
    simp [p7_profile_Create, ht]
  · intro x hx
    constructor <;> simp [p7_profile_Create, hx]
  · simp [p7_profile_Create, p7_TDM, p7_TDD]
  · simp [p7_profile_Create, p7_TDM, p7_TDD]
  · intro k hk
    constructor <;>
      · simp only [p7_profile_Create]
        split_ifs <;> simp_all <;> omega
  · intro k hk
    constructor <;>
      · simp only [p7_profile_Create]
        split_ifs <;> simp_all <;> omega

/-- C3 witness: the theorem applied at M = 1 over a 6-symbol alphabet with
gap index 4 and missing index 5, on all-zero fresh memory. -/
theorem create_fresh_sentinels_witness :
    (p7_profile_Create 1 { Kp := 6, gapX := 4, missingX := 5 } zeroMem).tsc 6 0 =
        p7_IMPOSSIBLE ∧
    (p7_profile_Create 1 { Kp := 6, gapX := 4, missingX := 5 } zeroMem).tsc p7_TDM 1 =
        p7_IMPOSSIBLE ∧
    (p7_profile_Create 1 { Kp := 6, gapX := 4, missingX := 5 } zeroMem).msc 4 1 =
        p7_IMPOSSIBLE := by
  have h := create_fresh_sentinels 1 { Kp := 6, gapX := 4, missingX := 5 } zeroMem
    (by decide)
  exact ⟨h.1 6 (by decide), h.2.2.1, (h.2.2.2.2.1 1 (by decide)).1⟩

/-- C7: every row of a P7_REFMX consists of `(M+1)` node blocks of exactly
6 channels in the order ML MG IL IG DL DG for `k = 0..M`, followed by one
trailing block of exactly 9 special channels in the order E N J B L G C JJ
CC; the access macros address main cell `(i,k,s)` at row offset
`k*p7R_NSCELLS + s` and special cell `(i,s)` at `(M+1)*p7R_NSCELLS + s`. -/
theorem refmx_row_layout (M : Nat) :
    (rowLayout M).length = (M + 1) * p7R_NSCELLS + p7R_NXCELLS ∧
    (∀ k, k ≤ M →
      (rowLayout M).get? (k * p7R_NSCELLS + p7R_ML) = some (RefCell.main k .ML) ∧
      (rowLayout M).get? (k * p7R_NSCELLS + p7R_MG) = some (RefCell.main k .MG) ∧
      (rowLayout M).get? (k * p7R_NSCELLS + p7R_IL) = some (RefCell.main k .IL) ∧
      (rowLayout M).get? (k * p7R_NSCELLS + p7R_IG) = some (RefCell.main k .IG) ∧
      (rowLayout M).get? (k * p7R_NSCELLS + p7R_DL) = some (RefCell.main k .DL) ∧
      (rowLayout M).get? (k * p7R_NSCELLS + p7R_DG) = some (RefCell.main k .DG)) ∧
    ((rowLayout M).get? ((M + 1) * p7R_NSCELLS + p7R_E) = some (RefCell.special .E) ∧
     (rowLayout M).get? ((M + 1) * p7R_NSCELLS + p7R_N) = some (RefCell.special .N) ∧
     (rowLayout M).get? ((M + 1) * p7R_NSCELLS + p7R_J) = some (RefCell.special .J) ∧
     (rowLayout M).get? ((M + 1) * p7R_NSCELLS + p7R_B) = some (RefCell.special .B) ∧
     (rowLayout M).get? ((M + 1) * p7R_NSCELLS + p7R_L) = some (RefCell.special .L) ∧
     (rowLayout M).get? ((M + 1) * p7R_NSCELLS + p7R_G) = some (RefCell.special .G) ∧
     (rowLayout M).get? ((M + 1) * p7R_NSCELLS + p7R_C) = some (RefCell.special .C) ∧
     (rowLayout M).get? ((M + 1) * p7R_NSCELLS + p7R_JJ) = some (RefCell.special .JJ) ∧
     (rowLayout M).get? ((M + 1) * p7R_NSCELLS + p7R_CC) = some (RefCell.special .CC)) ∧
    (∀ rmx : P7_REFMX, ∀ i k s, P7R_MX rmx i k s = rmx.dp i (k * p7R_NSCELLS + s)) ∧
    (∀ rmx : P7_REFMX, ∀ i s, P7R_XMX rmx i s = rmx.dp i ((rmx.M + 1) * p7R_NSCELLS + s)) := by
  refine ⟨?_, ?_, ?_, fun _ _ _ _ => rfl, fun _ _ _ => rfl⟩
  · simp [rowLayout, nodeBlocks_length, specialBlock, p7R_NSCELLS, p7R_NXCELLS]
  · intro k hk
    simp only [p7R_NSCELLS, p7R_ML, p7R_MG, p7R_IL, p7R_IG, p7R_DL, p7R_DG]
    refine ⟨?_, ?_, ?_, ?_, ?_, ?_⟩ <;>
      · rw [rowLayout_main M k _ hk (by omega)]
        rfl
  · simp only [p7R_NSCELLS, p7R_E, p7R_N, p7R_J, p7R_B, p7R_L, p7R_G, p7R_C,
      p7R_JJ, p7R_CC]
    refine ⟨?_, ?_, ?_, ?_, ?_, ?_, ?_, ?_, ?_⟩ <;>
      · rw [rowLayout_special]
        rfl

/-- C7 witness: the layout theorem applied at M = 1 — the DG channel of
node 1 sits at offset `1*6 + 5` and the CC special at `2*6 + 8`. -/
theorem refmx_row_layout_witness :
    (rowLayout 1).get? (1 * p7R_NSCELLS + p7R_DG) = some (RefCell.main 1 .DG) ∧
    (rowLayout 1).get? ((1 + 1) * p7R_NSCELLS + p7R_CC) = some (RefCell.special .CC) := by
  obtain ⟨-, hmain, hspec, -, -⟩ := refmx_row_layout 1
  exact ⟨(hmain 1 (by decide)).2.2.2.2.2, hspec.2.2.2.2.2.2.2.2⟩

/-- C8: `p7_profile_MPISend` on a NULL profile sends the single sentinel
int `-1`; `p7_profile_MPIRecv`, receiving that sentinel as the model size,
returns `eslEOD` without building or returning any profile. -/
theorem mpi_sentinel_eod (abc : ESL_ALPHABET) (bg : Option Nat) (mem : UninitMem) :
    p7_profile_MPISend none = [.ivec [-1]] ∧
    p7_profile_MPIRecv abc bg mem [.ivec [-1]] = (eslEOD, none) :=
  ⟨rfl, rfl⟩

/-- C6: if the `i`-th of the eleven allocations of `p7_profile_Create`
fails, `Create` returns NULL (no partial profile is returned), and the
`p7_profile_Destroy` teardown — with each field null-checked independently
— frees exactly the fields allocated so far, each once (no leak, no double
free, no free through a NULL table pointer). -/
theorem create_alloc_failure_teardown (i : Nat) (h : i < allocOrder.length) :
    (p7_profile_Create_allocRun (some i)).1 = none ∧
    (p7_profile_Create_allocRun (some i)).2.Nodup ∧
    (p7_profile_Create_allocRun (some i)).2.Perm (allocOrder.take i) := by
  have hall : ∀ j < 11,
      (p7_profile_Create_allocRun (some j)).1 = none ∧
      (p7_profile_Create_allocRun (some j)).2.Nodup ∧
      (p7_profile_Create_allocRun (some j)).2.Perm (allocOrder.take j) := by decide
  exact hall i h

/-- C6 witness: the teardown theorem applied at a failure of the tenth
allocation (the `msc` backing buffer). -/
theorem create_alloc_failure_teardown_witness :
    (p7_profile_Create_allocRun (some 9)).1 = none ∧
    (p7_profile_Create_allocRun (some 9)).2.Nodup ∧
    (p7_profile_Create_allocRun (some 9)).2.Perm (allocOrder.take 9) :=
  create_alloc_failure_teardown 9 (by decide)

/-- C5: sending a profile with `p7_profile_MPISend` and receiving it with
`p7_profile_MPIRecv` (the receiver holding the same alphabet and a
background model) is a round-trip.  The messages go out in the eleven-step
order the spec lists — size, mode, transition block, match-emission block,
insert-emission block, four special-score row pairs, begin/end score
vectors, four special-probability row pairs, begin/end probability vectors,
length-correction flag and value, legacy-mode flag — and the reconstructed
profile agrees with the sent one on `M`, `mode`, all seven transition-score
rows, both emission tables, the four `xsc` rows, `bsc`, `esc`, the four
`xt` rows, `begin`, `end`, `do_lcorrect`, `lscore` and `h2_mode`. -/
theorem mpi_profile_roundtrip (gm : P7_PROFILE) (bg : Option Nat) (mem : UninitMem) :
    p7_profile_MPISend (some gm) =
      [.ivec [(gm.M : Int)],
       .ivec [gm.mode],
       .ivec (matToList 7 gm.M gm.tsc),
       .ivec (matToList gm.abc.Kp (gm.M + 1) gm.msc),
       .ivec (matToList gm.abc.Kp gm.M gm.isc),
       .ivec (vecToList 2 (gm.xsc 0)), .ivec (vecToList 2 (gm.xsc 1)),
       .ivec (vecToList 2 (gm.xsc 2)), .ivec (vecToList 2 (gm.xsc 3)),
       .ivec (vecToList (gm.M + 1) gm.bsc), .ivec (vecToList (gm.M + 1) gm.esc),
       .fvec (vecToList 2 (gm.xt 0)), .fvec (vecToList 2 (gm.xt 1)),
       .fvec (vecToList 2 (gm.xt 2)), .fvec (vecToList 2 (gm.xt 3)),
       .fvec (vecToList (gm.M + 1) gm.begin_), .fvec (vecToList (gm.M + 1) gm.end_),
       .ivec [gm.do_lcorrect], .fvec [gm.lscore], .ivec [gm.h2_mode]] ∧
    ∃ gm', p7_profile_MPIRecv gm.abc bg mem (p7_profile_MPISend (some gm)) =
        (eslOK, some gm') ∧
      gm'.M = gm.M ∧
      gm'.mode = gm.mode ∧
      (∀ t, t < 7 → ∀ k, k < gm.M → gm'.tsc t k = gm.tsc t k) ∧
      (∀ x, x < gm.abc.Kp → ∀ k, k < gm.M + 1 → gm'.msc x k = gm.msc x k) ∧
      (∀ x, x < gm.abc.Kp → ∀ k, k < gm.M → gm'.isc x k = gm.isc x k) ∧
      (∀ i, i < 4 → ∀ j, j < 2 → gm'.xsc i j = gm.xsc i j) ∧
      (∀ k, k < gm.M + 1 → gm'.bsc k = gm.bsc k) ∧
      (∀ k, k < gm.M + 1 → gm'.esc k = gm.esc k) ∧
      (∀ i, i < 4 → ∀ j, j < 2 → gm'.xt i j = gm.xt i j) ∧
      (∀ k, k < gm.M + 1 → gm'.begin_ k = gm.begin_ k) ∧
      (∀ k, k < gm.M + 1 → gm'.end_ k = gm.end_ k) ∧
      gm'.do_lcorrect = gm.do_lcorrect ∧
      gm'.lscore = gm.lscore ∧
      gm'.h2_mode = gm.h2_mode := by
  have hm : ¬((gm.M : Int) = -1) := by omega
  have hMt : ((gm.M : Int)).toNat = gm.M := Int.toNat_natCast gm.M
  refine ⟨rfl, ?_⟩
  simp only [p7_profile_MPISend, p7_profile_MPIRecv, hm, if_false, hMt]
  refine ⟨_, rfl, hMt, rfl, ?_, ?_, ?_, ?_, ?_, ?_, ?_, ?_, ?_, rfl, rfl, rfl⟩
  · intro t ht k hk
    simp only [hMt]
    exact recvMat_matToList gm.tsc _ ht hk
  · intro x hx k hk
    simp only [hMt]
    exact recvMat_matToList gm.msc _ hx hk
  · intro x hx k hk
    simp only [hMt]
    exact recvMat_matToList gm.isc _ hx hk
  · intro i hi j hj
    interval_cases i <;> simp [recvVec_vecToList _ _ hj]
  · intro k hk
    simp only [hMt]
    exact recvVec_vecToList gm.bsc _ hk
  · intro k hk
    simp only [hMt]
    exact recvVec_vecToList gm.esc _ hk
  · intro i hi j hj
    interval_cases i <;> simp [recvVec_vecToList _ _ hj]
  · intro k hk
    simp only [hMt]
    exact recvVec_vecToList gm.begin_ _ hk
  · intro k hk
    simp only [hMt]
    exact recvVec_vecToList gm.end_ _ hk

/-- C5 witness: the round-trip theorem applied at the concrete all-zero
profile. -/
theorem mpi_profile_roundtrip_witness :
    ∃ gm', p7_profile_MPIRecv zeroProfile.abc none zeroMem
        (p7_profile_MPISend (some zeroProfile)) = (eslOK, some gm') ∧
      gm'.M = zeroProfile.M := by
  obtain ⟨-, gm', heq, hM, -⟩ := mpi_profile_roundtrip zeroProfile none zeroMem
  exact ⟨gm', heq, hM⟩
